import Mathlib

/-!
Shallow embedding of the `ghfilter` package: a `Filter` is a list of
`Condition`s, and a `Condition` compares an incoming GitHub event's typed
fields and raw JSON payload against its configured sub-checks.

The embedding follows the current source (the version whose `Condition`
carries a `Negate` flag and the payload issue label / milestone /
title-regexp / body-regexp sub-checks).  External library behaviour the
source relies on is modelled explicitly:

* `encoding/json` partial unmarshalling into small structs, including
  case-insensitive object-key matching (restricted to ASCII folding),
  `null` being a no-op for struct and string targets and setting slices
  to nil, absent keys leaving the zero value, later duplicate keys
  overwriting earlier ones, and wrong-typed values producing an error;
* `regexp.Compile` / `MatchString` for the fragment of Go regexp syntax
  the package's patterns use: literal characters, the escape classes
  `\s`, `\d`, `\w`, escaped punctuation, the postfix `+` repetition,
  `.`, and an optional leading `(?i)` case-insensitivity flag
  (ASCII folding); every pattern outside this fragment is rejected as
  malformed.  Matching is unanchored search, as in Go's `MatchString`.
* `strings.ToLower` / `strings.EqualFold`, restricted to ASCII.
-/

namespace Ghfilter

/-- Character atoms of the modelled Go regexp fragment. -/
inductive RAtom where
  | lit (c : Char)
  | ws
  | digit
  | wordc
  | any
deriving DecidableEq

/-- Does atom `a` accept character `c` (with case-insensitive flag `ci`)?
`\s` is Go's `[\t\n\f\r ]`; `.` excludes newline as in Go's default mode. -/
def atomMatch (ci : Bool) (a : RAtom) (c : Char) : Bool :=
  match a with
  | .lit l => if ci then l.toLower == c.toLower else l == c
  | .ws => c == ' ' || c == '\t' || c == '\n' || c == '\x0c' || c == '\r'
  | .digit => '0' ≤ c && c ≤ '9'
  | .wordc => ('a' ≤ c && c ≤ 'z') || ('A' ≤ c && c ≤ 'Z') || ('0' ≤ c && c ≤ '9') || c == '_'
  | .any => c != '\n'

/-- Regular expressions over `RAtom`, used to run the compiled pattern by
Brzozowski derivatives. -/
inductive RE where
  | fail
  | eps
  | atom (a : RAtom)
  | cat (r1 r2 : RE)
  | alt (r1 r2 : RE)
  | star (r : RE)
deriving DecidableEq

/-- Does `r` accept the empty string? -/
def nullable : RE → Bool
  | .fail => false
  | .eps => true
  | .atom _ => false
  | .cat r1 r2 => nullable r1 && nullable r2
  | .alt r1 r2 => nullable r1 || nullable r2
  | .star _ => true

/-- Brzozowski derivative of `r` with respect to character `c`. -/
def deriv (ci : Bool) : RE → Char → RE
  | .fail, _ => .fail
  | .eps, _ => .fail
  | .atom a, c => if atomMatch ci a c then .eps else .fail
  | .cat r1 r2, c =>
    if nullable r1 then .alt (.cat (deriv ci r1 c) r2) (deriv ci r2 c)
    else .cat (deriv ci r1 c) r2
  | .alt r1 r2, c => .alt (deriv ci r1 c) (deriv ci r2 c)
  | .star r, c => .cat (deriv ci r c) (.star r)

/-- Does some prefix of `cs` match `r`? -/
def headMatch (ci : Bool) (r : RE) : List Char → Bool
  | [] => nullable r
  | c :: cs => nullable r || headMatch ci (deriv ci r c) cs

/-- Does `r` match a substring starting at some position of `cs`?
This is the unanchored search `regexp.MatchString` performs. -/
def searchAux (ci : Bool) (r : RE) : List Char → Bool
  | [] => nullable r
  | c :: cs => headMatch ci r (c :: cs) || searchAux ci r cs

/-- One element of a parsed pattern: an atom appearing once, or an atom
under a postfix `+` (one or more). -/
inductive RElem where
  | once (a : RAtom)
  | plus (a : RAtom)
deriving DecidableEq

/-- Translate a parsed element into a plain regular expression. -/
def elemRE : RElem → RE
  | .once a => .atom a
  | .plus a => .cat (.atom a) (.star (.atom a))

/-- Concatenate the elements of a parsed pattern. -/
def toRE (es : List RElem) : RE :=
  es.foldr (fun e acc => .cat (elemRE e) acc) .eps

/-- Escape sequences of the modelled fragment; anything else (unknown
letter escapes, backreferences) is a compile error, as in Go. -/
def escAtom : Char → Option RAtom
  | 's' => some .ws
  | 'd' => some .digit
  | 'w' => some .wordc
  | 'n' => some (.lit '\n')
  | 't' => some (.lit '\t')
  | 'r' => some (.lit '\r')
  | '\\' => some (.lit '\\')
  | '.' => some (.lit '.')
  | '+' => some (.lit '+')
  | '*' => some (.lit '*')
  | '?' => some (.lit '?')
  | '(' => some (.lit '(')
  | ')' => some (.lit ')')
  | '[' => some (.lit '[')
  | ']' => some (.lit ']')
  | '{' => some (.lit '\x7b')
  | '}' => some (.lit '\x7d')
  | '|' => some (.lit '|')
  | '^' => some (.lit '^')
  | '$' => some (.lit '$')
  | '-' => some (.lit '-')
  | '/' => some (.lit '/')
  | _ => none

/-- Parse the character list of a pattern into elements.  Metacharacters
outside the modelled fragment (grouping, classes, alternation, anchors,
`*`, `?`, a leading `+`, a trailing backslash) are compile errors; Go
likewise rejects the concrete malformed patterns considered here. -/
def parseElems : List Char → Option (List RElem)
  | [] => some []
  | '\\' :: [] => none
  | '\\' :: e :: '+' :: rest =>
    match escAtom e with
    | none => none
    | some a => (parseElems rest).map (.plus a :: ·)
  | '\\' :: e :: rest =>
    match escAtom e with
    | none => none
    | some a => (parseElems rest).map (.once a :: ·)
  | '+' :: _ => none
  | '*' :: _ => none
  | '?' :: _ => none
  | '(' :: _ => none
  | ')' :: _ => none
  | '[' :: _ => none
  | ']' :: _ => none
  | '\x7b' :: _ => none
  | '\x7d' :: _ => none
  | '|' :: _ => none
  | '^' :: _ => none
  | '$' :: _ => none
  | '.' :: '+' :: rest => (parseElems rest).map (.plus .any :: ·)
  | '.' :: rest => (parseElems rest).map (.once .any :: ·)
  | c :: '+' :: rest => (parseElems rest).map (.plus (.lit c) :: ·)
  | c :: rest => (parseElems rest).map (.once (.lit c) :: ·)

/-- Is the first list a prefix of the second?  Used to detect the
leading `(?i)` flag (kernel-reducible replacement for `startsWith`). -/
def isPre : List Char → List Char → Bool
  | [], _ => true
  | _ :: _, [] => false
  | a :: as, b :: bs => a == b && isPre as bs

/-- A compiled pattern: the case-insensitivity flag and the expression. -/
structure Regexp where
  ci : Bool
  re : RE
deriving DecidableEq

/-- Model of `regexp.Compile`: `none` is a compile error.  A leading
`(?i)` sets the case-insensitivity flag. -/
def compileRegexp (pat : String) : Option Regexp :=
  let ci := isPre ['(', '?', 'i', ')'] pat.data
  let body := if ci then pat.data.drop 4 else pat.data
  (parseElems body).map fun es => { ci := ci, re := toRE es }

/-- Model of `(*regexp.Regexp).MatchString`: unanchored search. -/
def Regexp.MatchString (re : Regexp) (s : String) : Bool :=
  searchAux re.ci re.re s.data

/-- JSON values, the parse result of a raw payload. -/
inductive Json where
  | null
  | bool (b : Bool)
  | num (n : Int)
  | str (s : String)
  | arr (xs : List Json)
  | obj (kvs : List (String × Json))

/-- A raw payload: either bytes that are not valid JSON, or a parsed
JSON document. -/
inductive Raw where
  | invalid
  | json (j : Json)

/-- ASCII model of Go's `strings.ToLower` (kernel-reducible). -/
def lowerStr (s : String) : String :=
  String.mk (s.data.map Char.toLower)

/-- ASCII model of the case-insensitive key fold `encoding/json` uses
when matching object keys to struct fields. -/
def strEqFold (a b : String) : Bool :=
  lowerStr a == lowerStr b

/-- All values stored (in order) under keys matching `name`
case-insensitively; `encoding/json` decodes each occurrence in turn,
later ones overwriting earlier ones. -/
def fieldVals (name : String) (kvs : List (String × Json)) : List Json :=
  kvs.filterMap fun kv => if strEqFold kv.1 name then some kv.2 else none

/-- Decode successive occurrences of a string-typed field: a JSON string
overwrites the current value, `null` is a no-op, and any other value is
a decode error. -/
def strOccs : List Json → String → Option String
  | [], cur => some cur
  | .str s :: rest, _ => strOccs rest s
  | .null :: rest, cur => strOccs rest cur
  | _ :: _, _ => none

/-- Decode one element of a `[]string`: `null` leaves the zero value. -/
def labelsElem : Json → Option String
  | .str s => some s
  | .null => some ""
  | _ => none

/-- Decode a JSON array into a `[]string`, failing on a wrong-typed
element. -/
def labelsElems : List Json → Option (List String)
  | [] => some []
  | x :: rest =>
    match labelsElem x with
    | none => none
    | some s => (labelsElems rest).map (s :: ·)

/-- Decode successive occurrences of the `labels` field: an array
replaces the slice, `null` sets it to nil, anything else errors. -/
def labelsOccs : List Json → List String → Option (List String)
  | [], cur => some cur
  | .arr xs :: rest, _ =>
    match labelsElems xs with
    | none => none
    | some ls => labelsOccs rest ls
  | .null :: rest, _ => labelsOccs rest []
  | _ :: _, _ => none

/-- Decode successive occurrences of an object-typed field carrying a
string field `name` inside: each occurrence must be an object (decoded
sequentially into the same target) or `null` (a no-op). -/
def objOccsStrField (name : String) : List Json → String → Option String
  | [], cur => some cur
  | .obj kvs :: rest, cur =>
    match strOccs (fieldVals name kvs) cur with
    | none => none
    | some cur' => objOccsStrField name rest cur'
  | .null :: rest, cur => objOccsStrField name rest cur
  | _ :: _, _ => none

/-- Decode successive occurrences of the `issue` field when the target
inside is `milestone.title`. -/
def issueOccsMilestoneTitle : List Json → String → Option String
  | [], cur => some cur
  | .obj kvs :: rest, cur =>
    match objOccsStrField "title" (fieldVals "milestone" kvs) cur with
    | none => none
    | some cur' => issueOccsMilestoneTitle rest cur'
  | .null :: rest, cur => issueOccsMilestoneTitle rest cur
  | _ :: _, _ => none

/-- Decode successive occurrences of the `issue` field when the target
inside is the `labels` slice. -/
def issueOccsLabels : List Json → List String → Option (List String)
  | [], cur => some cur
  | .obj kvs :: rest, cur =>
    match labelsOccs (fieldVals "labels" kvs) cur with
    | none => none
    | some cur' => issueOccsLabels rest cur'
  | .null :: rest, cur => issueOccsLabels rest cur
  | _ :: _, _ => none

/-- `json.Unmarshal` into `struct { Action string }`: the document must
be an object (or `null`); an absent `action` key leaves the zero value. -/
def unmarshalAction : Raw → Option String
  | .invalid => none
  | .json .null => some ""
  | .json (.obj kvs) => strOccs (fieldVals "action" kvs) ""
  | .json _ => none

/-- `json.Unmarshal` into `struct { Issue struct { Labels []string } }`. -/
def unmarshalIssueLabels : Raw → Option (List String)
  | .invalid => none
  | .json .null => some []
  | .json (.obj kvs) => issueOccsLabels (fieldVals "issue" kvs) []
  | .json _ => none

/-- `json.Unmarshal` into
`struct { Issue struct { Milestone struct { Title string } } }`. -/
def unmarshalIssueMilestoneTitle : Raw → Option String
  | .invalid => none
  | .json .null => some ""
  | .json (.obj kvs) => issueOccsMilestoneTitle (fieldVals "issue" kvs) ""
  | .json _ => none

/-- `json.Unmarshal` into `struct { Issue struct { Title string } }`. -/
def unmarshalIssueTitle : Raw → Option String
  | .invalid => none
  | .json .null => some ""
  | .json (.obj kvs) => objOccsStrField "title" (fieldVals "issue" kvs) ""
  | .json _ => none

/-- `json.Unmarshal` into `struct { Issue struct { Body string } }`. -/
def unmarshalIssueBody : Raw → Option String
  | .invalid => none
  | .json .null => some ""
  | .json (.obj kvs) => objOccsStrField "body" (fieldVals "issue" kvs) ""
  | .json _ => none

/-- `github.Organization`, reduced to the field the package reads. -/
structure Organization where
  ID : Option Int := none

/-- `github.Repository`, reduced to the field the package reads. -/
structure Repository where
  ID : Option Int := none

/-- `github.Event`, reduced to the fields the package reads.  Pointer
fields become `Option`s; a `none` raw payload is a nil pointer. -/
structure Event where
  «Type» : Option String := none
  RawPayload : Option Raw := none
  Public : Option Bool := none
  Org : Option Organization := none
  Repo : Option Repository := none

/-- `event.GetType()`: the type label, or `""` for a nil pointer. -/
def Event.GetType (e : Event) : String := e.«Type».getD ""

/-- `event.GetPublic()`: the visibility flag, or `false` for nil. -/
def Event.GetPublic (e : Event) : Bool := e.Public.getD false

/-- `org.GetID()`: the numeric ID, or `0` for nil. -/
def Organization.GetID (o : Organization) : Int := o.ID.getD 0

/-- `repo.GetID()`: the numeric ID, or `0` for nil. -/
def Repository.GetID (r : Repository) : Int := r.ID.getD 0

/-- The `Condition` struct: one predicate made of independently optional
sub-checks, with a `Negate` flag. -/
structure Condition where
  Negate : Bool := false
  «Type» : String := ""
  PayloadAction : String := ""
  PayloadIssueLabel : String := ""
  PayloadIssueMilestoneTitle : String := ""
  PayloadIssueTitleRegexp : String := ""
  PayloadIssueBodyRegexp : String := ""
  ComparePublic : Bool := false
  Public : Bool := false
  OrganizationID : Int := 0
  RepositoryID : Int := 0

/-- The `type` sub-check of `Condition.Matches`: `some r` is an early
`return r`; `none` falls through to the next sub-check. -/
def checkType (c : Condition) (event : Event) : Option Bool :=
  if c.«Type» ≠ "" ∧ event.GetType ≠ c.«Type» then some c.Negate else none

/-- The `payloadAction` sub-check of `Condition.Matches`. -/
def checkPayloadAction (c : Condition) (event : Event) : Option Bool :=
  if c.PayloadAction = "" then none
  else
    match event.RawPayload with
    | none => some false
    | some raw =>
      match unmarshalAction raw with
      | none => some false
      | some action =>
        if lowerStr action ≠ lowerStr c.PayloadAction then some c.Negate else none

/-- The `payloadIssueLabel` sub-check of `Condition.Matches`. -/
def checkPayloadIssueLabel (c : Condition) (event : Event) : Option Bool :=
  if c.PayloadIssueLabel = "" then none
  else
    match event.RawPayload with
    | none => some false
    | some raw =>
      match unmarshalIssueLabels raw with
      | none => some false
      | some labels =>
        let found := labels.any fun label => lowerStr label == lowerStr c.PayloadIssueLabel
        if !found then some c.Negate else none

/-- The `payloadIssueMilestoneTitle` sub-check of `Condition.Matches`. -/
def checkPayloadIssueMilestoneTitle (c : Condition) (event : Event) : Option Bool :=
  if c.PayloadIssueMilestoneTitle = "" then none
  else
    match event.RawPayload with
    | none => some false
    | some raw =>
      match unmarshalIssueMilestoneTitle raw with
      | none => some false
      | some title =>
        if lowerStr title ≠ lowerStr c.PayloadIssueMilestoneTitle then some c.Negate else none

/-- The `payloadIssueTitleRegexp` sub-check of `Condition.Matches`: the
pattern is compiled afresh on every evaluation, and a compile error is
an early `return false`. -/
def checkPayloadIssueTitleRegexp (c : Condition) (event : Event) : Option Bool :=
  if c.PayloadIssueTitleRegexp = "" then none
  else
    match event.RawPayload with
    | none => some false
    | some raw =>
      match unmarshalIssueTitle raw with
      | none => some false
      | some title =>
        match compileRegexp c.PayloadIssueTitleRegexp with
        | none => some false
        | some re => if !(re.MatchString title) then some c.Negate else none

/-- The `payloadIssueBodyRegexp` sub-check of `Condition.Matches`. -/
def checkPayloadIssueBodyRegexp (c : Condition) (event : Event) : Option Bool :=
  if c.PayloadIssueBodyRegexp = "" then none
  else
    match event.RawPayload with
    | none => some false
    | some raw =>
      match unmarshalIssueBody raw with
      | none => some false
      | some body =>
        match compileRegexp c.PayloadIssueBodyRegexp with
        | none => some false
        | some re => if !(re.MatchString body) then some c.Negate else none

/-- The visibility sub-check of `Condition.Matches`. -/
def checkComparePublic (c : Condition) (event : Event) : Option Bool :=
  if c.ComparePublic ∧ event.GetPublic ≠ c.Public then some c.Negate else none

/-- The organization-ID sub-check of `Condition.Matches`. -/
def checkOrganizationID (c : Condition) (event : Event) : Option Bool :=
  if c.OrganizationID = 0 then none
  else
    match event.Org with
    | none => some c.Negate
    | some o => if o.GetID ≠ c.OrganizationID then some c.Negate else none

/-- The repository-ID sub-check of `Condition.Matches`. -/
def checkRepositoryID (c : Condition) (event : Event) : Option Bool :=
  if c.RepositoryID = 0 then none
  else
    match event.Repo with
    | none => some c.Negate
    | some r => if r.GetID ≠ c.RepositoryID then some c.Negate else none

/-- The first early `return` of a sequence of sub-checks, or the default
final return value when every sub-check falls through. -/
def firstReturn : List (Option Bool) → Bool → Bool
  | [], d => d
  | some r :: _, _ => r
  | none :: rest, d => firstReturn rest d

/-- `Condition.Matches`: evaluate the sub-checks in the source's fixed
order, returning at the first early return, else `!c.Negate`. -/
def Condition.Matches (c : Condition) (event : Event) : Bool :=
  firstReturn
    [checkType c event, checkPayloadAction c event, checkPayloadIssueLabel c event,
      checkPayloadIssueMilestoneTitle c event, checkPayloadIssueTitleRegexp c event,
      checkPayloadIssueBodyRegexp c event, checkComparePublic c event,
      checkOrganizationID c event, checkRepositoryID c event]
    (!c.Negate)

/-- The `Filter` struct: an ordered collection of conditions. -/
structure Filter where
  Conditions : List Condition := []

/-- The loop body of `Filter.Matches`: return `false` at the first
condition that does not match, else `true`. -/
def matchesAll (event : Event) : List Condition → Bool
  | [] => true
  | c :: rest => if !(c.Matches event) then false else matchesAll event rest

/-- `Filter.Matches`: true iff every condition matches the event. -/
def Filter.Matches (f : Filter) (event : Event) : Bool :=
  matchesAll event f.Conditions

/-- Go's `%q` quoting of a string, restricted to escaping backslashes and
double quotes (the only escapes the package's rendered values need). -/
def quoteGo (s : String) : String :=
  "\"" ++ String.join (s.data.map fun c =>
    if c = '\\' then "\\\\" else if c = '"' then "\\\"" else String.singleton c) ++ "\""

/-- Modelled from the spec: the repository's `Condition.String` method is
not among the sources (only its tests are), so its rendering is modelled
from the spec's words — the configured sub-checks are rendered in the
same fixed order as evaluation, joined with `" AND "` after a leading
`"If "`, each clause phrased per `Negate` (is / is not, matches / does
not match regexp, contains / does not contain), with the doubled
negative `"event is not not public"` when `ComparePublic` is true,
`Public` false and `Negate` true. -/
def Condition.string (c : Condition) : String :=
  let clauses :=
    (if c.«Type» ≠ "" then
      [(if c.Negate then "type is not " else "type is ") ++ quoteGo c.«Type»] else []) ++
    (if c.PayloadAction ≠ "" then
      [(if c.Negate then "payload action is not " else "payload action is ") ++
        quoteGo c.PayloadAction] else []) ++
    (if c.PayloadIssueLabel ≠ "" then
      [(if c.Negate then "payload issue label does not contain "
        else "payload issue label contains ") ++ quoteGo c.PayloadIssueLabel] else []) ++
    (if c.PayloadIssueMilestoneTitle ≠ "" then
      [(if c.Negate then "payload issue milestone title is not "
        else "payload issue milestone title is ") ++
        quoteGo c.PayloadIssueMilestoneTitle] else []) ++
    (if c.PayloadIssueTitleRegexp ≠ "" then
      [(if c.Negate then "payload issue title does not match regexp "
        else "payload issue title matches regexp ") ++
        quoteGo c.PayloadIssueTitleRegexp] else []) ++
    (if c.PayloadIssueBodyRegexp ≠ "" then
      [(if c.Negate then "payload issue body does not match regexp "
        else "payload issue body matches regexp ") ++
        quoteGo c.PayloadIssueBodyRegexp] else []) ++
    (if c.ComparePublic then
      ["event is" ++ (if c.Negate then " not" else "") ++
        (if c.Public then "" else " not") ++ " public"] else []) ++
    (if c.OrganizationID ≠ 0 then
      [(if c.Negate then "organization ID is not " else "organization ID is ") ++
        toString c.OrganizationID] else []) ++
    (if c.RepositoryID ≠ 0 then
      [(if c.Negate then "repository ID is not " else "repository ID is ") ++
        toString c.RepositoryID] else [])
  "If " ++ String.intercalate " AND " clauses

/-! ## Helper lemmas -/

/-- A regex that accepts the empty string head-matches every string. -/
lemma nullable_headMatch {ci : Bool} {r : RE} (h : nullable r = true) :
    ∀ u : List Char, headMatch ci r u = true := by
  intro u
  cases u <;> simp [headMatch, h]

/-- Head-matching is preserved by extending the input on the right. -/
lemma headMatch_append {ci : Bool} :
    ∀ (t : List Char) (r : RE), headMatch ci r t = true →
      ∀ u : List Char, headMatch ci r (t ++ u) = true := by
  intro t
  induction t with
  | nil =>
    intro r h u
    exact nullable_headMatch (by simpa [headMatch] using h) u
  | cons c cs ih =>
    intro r h u
    simp only [headMatch, List.cons_append, Bool.or_eq_true] at h ⊢
    rcases h with h | h
    · exact Or.inl h
    · exact Or.inr (ih _ h u)

/-- Search is preserved by extending the input on the right. -/
lemma searchAux_append_right {ci : Bool} {r : RE} :
    ∀ l1 l2 : List Char, searchAux ci r l1 = true → searchAux ci r (l1 ++ l2) = true := by
  intro l1
  induction l1 with
  | nil =>
    intro l2 h
    simp only [searchAux] at h
    cases l2 with
    | nil => simpa [searchAux] using h
    | cons c cs => simp [searchAux, headMatch, h]
  | cons c cs ih =>
    intro l2 h
    simp only [searchAux, Bool.or_eq_true, List.cons_append] at h ⊢
    rcases h with h | h
    · exact Or.inl (headMatch_append _ _ h l2)
    · exact Or.inr (ih l2 h)

/-- Search is preserved by extending the input on the left. -/
lemma searchAux_append_left {ci : Bool} {r : RE} :
    ∀ l1 l2 : List Char, searchAux ci r l2 = true → searchAux ci r (l1 ++ l2) = true := by
  intro l1
  induction l1 with
  | nil => intro l2 h; simpa using h
  | cons c cs ih =>
    intro l2 h
    simp only [searchAux, Bool.or_eq_true, List.cons_append]
    exact Or.inr (ih l2 h)

/-- The loop of `Filter.Matches` is the universal quantifier over the
conditions. -/
lemma matchesAll_iff (e : Event) :
    ∀ cs : List Condition, matchesAll e cs = true ↔ ∀ c ∈ cs, c.Matches e = true := by
  intro cs
  induction cs with
  | nil => simp [matchesAll]
  | cons c rest ih => cases h : c.Matches e <;> simp [matchesAll, h, ih]

/-- A condition whose only configured sub-check is `PayloadIssueLabel`
computes the case-insensitive membership test over the decoded labels. -/
lemma matches_payloadIssueLabel_any (l : String) (e : Event) (raw : Raw) (ls : List String)
    (hl : l ≠ "") (hraw : e.RawPayload = some raw)
    (hls : unmarshalIssueLabels raw = some ls) :
    Condition.Matches { PayloadIssueLabel := l } e
      = ls.any fun x => lowerStr x == lowerStr l := by
  cases hany : ls.any fun x => lowerStr x == lowerStr l <;>
    simp [Condition.Matches, firstReturn, checkType, checkPayloadAction,
      checkPayloadIssueLabel, checkPayloadIssueMilestoneTitle,
      checkPayloadIssueTitleRegexp, checkPayloadIssueBodyRegexp, checkComparePublic,
      checkOrganizationID, checkRepositoryID, hl, hraw, hls, hany]

/-! ## Claims -/

/-- C1: `Condition.Matches` uses early-return-per-subcheck negation:
for each of the nine sub-checks in the fixed evaluation order, when the
earlier sub-checks fall through (unset or satisfied) and this sub-check
is configured with its data present but its comparison failing, the
result is `c.Negate` at once — the later fields of the condition are
universally quantified and unconstrained, so no later sub-check is
consulted; when every sub-check falls through (each configured sub-check
succeeded, or all are unset) the result is `!c.Negate`; and the
all-zero condition with `Negate = false` matches every event. -/
theorem condition_matches_early_return_negation :
    (∀ (c : Condition) (e : Event), c.«Type» ≠ "" → e.GetType ≠ c.«Type» →
      c.Matches e = c.Negate) ∧
    (∀ (c : Condition) (e : Event) (raw : Raw) (s : String),
      checkType c e = none →
      c.PayloadAction ≠ "" → e.RawPayload = some raw → unmarshalAction raw = some s →
      lowerStr s ≠ lowerStr c.PayloadAction → c.Matches e = c.Negate) ∧
    (∀ (c : Condition) (e : Event) (raw : Raw) (ls : List String),
      checkType c e = none → checkPayloadAction c e = none →
      c.PayloadIssueLabel ≠ "" → e.RawPayload = some raw →
      unmarshalIssueLabels raw = some ls →
      (ls.any fun x => lowerStr x == lowerStr c.PayloadIssueLabel) = false →
      c.Matches e = c.Negate) ∧
    (∀ (c : Condition) (e : Event) (raw : Raw) (s : String),
      checkType c e = none → checkPayloadAction c e = none →
      checkPayloadIssueLabel c e = none →
      c.PayloadIssueMilestoneTitle ≠ "" → e.RawPayload = some raw →
      unmarshalIssueMilestoneTitle raw = some s →
      lowerStr s ≠ lowerStr c.PayloadIssueMilestoneTitle → c.Matches e = c.Negate) ∧
    (∀ (c : Condition) (e : Event) (raw : Raw) (t : String) (re : Regexp),
      checkType c e = none → checkPayloadAction c e = none →
      checkPayloadIssueLabel c e = none → checkPayloadIssueMilestoneTitle c e = none →
      c.PayloadIssueTitleRegexp ≠ "" → e.RawPayload = some raw →
      unmarshalIssueTitle raw = some t →
      compileRegexp c.PayloadIssueTitleRegexp = some re → re.MatchString t = false →
      c.Matches e = c.Negate) ∧
    (∀ (c : Condition) (e : Event) (raw : Raw) (b : String) (re : Regexp),
      checkType c e = none → checkPayloadAction c e = none →
      checkPayloadIssueLabel c e = none → checkPayloadIssueMilestoneTitle c e = none →
      checkPayloadIssueTitleRegexp c e = none →
      c.PayloadIssueBodyRegexp ≠ "" → e.RawPayload = some raw →
      unmarshalIssueBody raw = some b →
      compileRegexp c.PayloadIssueBodyRegexp = some re → re.MatchString b = false →
      c.Matches e = c.Negate) ∧
    (∀ (c : Condition) (e : Event),
      checkType c e = none → checkPayloadAction c e = none →
      checkPayloadIssueLabel c e = none → checkPayloadIssueMilestoneTitle c e = none →
      checkPayloadIssueTitleRegexp c e = none → checkPayloadIssueBodyRegexp c e = none →
      c.ComparePublic = true → e.GetPublic ≠ c.Public → c.Matches e = c.Negate) ∧
    (∀ (c : Condition) (e : Event) (o : Organization),
      checkType c e = none → checkPayloadAction c e = none →
      checkPayloadIssueLabel c e = none → checkPayloadIssueMilestoneTitle c e = none →
      checkPayloadIssueTitleRegexp c e = none → checkPayloadIssueBodyRegexp c e = none →
      checkComparePublic c e = none →
      c.OrganizationID ≠ 0 → e.Org = some o → o.GetID ≠ c.OrganizationID →
      c.Matches e = c.Negate) ∧
    (∀ (c : Condition) (e : Event) (r : Repository),
      checkType c e = none → checkPayloadAction c e = none →
      checkPayloadIssueLabel c e = none → checkPayloadIssueMilestoneTitle c e = none →
      checkPayloadIssueTitleRegexp c e = none → checkPayloadIssueBodyRegexp c e = none →
      checkComparePublic c e = none → checkOrganizationID c e = none →
      c.RepositoryID ≠ 0 → e.Repo = some r → r.GetID ≠ c.RepositoryID →
      c.Matches e = c.Negate) ∧
    (∀ (c : Condition) (e : Event),
      checkType c e = none → checkPayloadAction c e = none →
      checkPayloadIssueLabel c e = none → checkPayloadIssueMilestoneTitle c e = none →
      checkPayloadIssueTitleRegexp c e = none → checkPayloadIssueBodyRegexp c e = none →
      checkComparePublic c e = none → checkOrganizationID c e = none →
      checkRepositoryID c e = none → c.Matches e = !c.Negate) ∧
    (∀ (c : Condition) (e : Event),
      c.«Type» = "" → c.PayloadAction = "" → c.PayloadIssueLabel = "" →
      c.PayloadIssueMilestoneTitle = "" → c.PayloadIssueTitleRegexp = "" →
      c.PayloadIssueBodyRegexp = "" → c.ComparePublic = false →
      c.OrganizationID = 0 → c.RepositoryID = 0 →
      c.Matches e = !c.Negate) ∧
    (∀ e : Event, Condition.Matches {} e = true) := by
  refine ⟨?_, ?_, ?_, ?_, ?_, ?_, ?_, ?_, ?_, ?_, ?_, ?_⟩
  · intro c e h1 h2
    simp [Condition.Matches, firstReturn, checkType, h1, h2]
  · intro c e raw s h1 ha hraw hdec hne
    simp [Condition.Matches, firstReturn, checkPayloadAction, h1, ha, hraw, hdec, hne]
  · intro c e raw ls h1 h2 hl hraw hls hany
    simp [Condition.Matches, firstReturn, checkPayloadIssueLabel,
      h1, h2, hl, hraw, hls, hany]
  · intro c e raw s h1 h2 h3 hm hraw hdec hne
    simp [Condition.Matches, firstReturn, checkPayloadIssueMilestoneTitle,
      h1, h2, h3, hm, hraw, hdec, hne]
  · intro c e raw t re h1 h2 h3 h4 hp hraw hdec hcomp hmatch
    simp [Condition.Matches, firstReturn, checkPayloadIssueTitleRegexp,
      h1, h2, h3, h4, hp, hraw, hdec, hcomp, hmatch]
  · intro c e raw b re h1 h2 h3 h4 h5 hp hraw hdec hcomp hmatch
    simp [Condition.Matches, firstReturn, checkPayloadIssueBodyRegexp,
      h1, h2, h3, h4, h5, hp, hraw, hdec, hcomp, hmatch]
  · intro c e h1 h2 h3 h4 h5 h6 hcp hne
    simp [Condition.Matches, firstReturn, checkComparePublic,
      h1, h2, h3, h4, h5, h6, hcp, hne]
  · intro c e o h1 h2 h3 h4 h5 h6 h7 hn ho hne
    simp [Condition.Matches, firstReturn, checkOrganizationID,
      h1, h2, h3, h4, h5, h6, h7, hn, ho, hne]
  · intro c e r h1 h2 h3 h4 h5 h6 h7 h8 hn hr hne
    simp [Condition.Matches, firstReturn, checkRepositoryID,
      h1, h2, h3, h4, h5, h6, h7, h8, hn, hr, hne]
  · intro c e h1 h2 h3 h4 h5 h6 h7 h8 h9
    simp [Condition.Matches, firstReturn, h1, h2, h3, h4, h5, h6, h7, h8, h9]
  · intro c e h1 h2 h3 h4 h5 h6 h7 h8 h9
    simp [Condition.Matches, firstReturn, checkType, checkPayloadAction,
      checkPayloadIssueLabel, checkPayloadIssueMilestoneTitle,
      checkPayloadIssueTitleRegexp, checkPayloadIssueBodyRegexp, checkComparePublic,
      checkOrganizationID, checkRepositoryID, h1, h2, h3, h4, h5, h6, h7, h8, h9]
  · intro e
    simp [Condition.Matches, firstReturn, checkType, checkPayloadAction,
      checkPayloadIssueLabel, checkPayloadIssueMilestoneTitle,
      checkPayloadIssueTitleRegexp, checkPayloadIssueBodyRegexp, checkComparePublic,
      checkOrganizationID, checkRepositoryID]

/-- Witness for C1: each position's early return exercised concretely —
notably the failing type sub-check (position 1) and the failing action
comparison (position 2) both return `Negate = true` although a later
configured sub-check (nil payload, malformed pattern `"("`) would
hard-fail to false if it were evaluated; plus an all-configured-passing
condition returning `!Negate` and the all-unset condition. -/
theorem condition_matches_early_return_negation_witness :
    (Condition.Matches { «Type» := "a", PayloadAction := "x", Negate := true }
      { «Type» := some "b" } = true) ∧
    (Condition.Matches
      { PayloadAction := "opened", PayloadIssueTitleRegexp := "(", Negate := true }
      { RawPayload := some (.json (.obj [("action", .str "x")])) } = true) ∧
    (Condition.Matches { PayloadIssueLabel := "lbl", Negate := true }
      { RawPayload := some (.json (.obj
        [("issue", .obj [("labels", .arr [.str "other"])])])) } = true) ∧
    (Condition.Matches { PayloadIssueMilestoneTitle := "v1", Negate := true }
      { RawPayload := some (.json (.obj
        [("issue", .obj [("milestone", .obj [("title", .str "x")])])])) } = true) ∧
    (Condition.Matches { PayloadIssueTitleRegexp := "z", Negate := true }
      { RawPayload := some (.json (.obj
        [("issue", .obj [("title", .str "abc")])])) } = true) ∧
    (Condition.Matches { PayloadIssueBodyRegexp := "z", Negate := true }
      { RawPayload := some (.json (.obj
        [("issue", .obj [("body", .str "abc")])])) } = true) ∧
    (Condition.Matches { ComparePublic := true, Public := true, Negate := true } {}
      = true) ∧
    (Condition.Matches { OrganizationID := 1, Negate := true }
      { Org := some { ID := some 2 } } = true) ∧
    (Condition.Matches { RepositoryID := 1, Negate := true }
      { Repo := some { ID := some 2 } } = true) ∧
    (Condition.Matches { «Type» := "t", Negate := true } { «Type» := some "t" }
      = false) ∧
    (Condition.Matches { Negate := true } { «Type» := some "b" } = false) ∧
    (Condition.Matches {} { «Type» := some "b" } = true) := by
  refine ⟨?_, ?_, ?_, ?_, ?_, ?_, ?_, ?_, ?_, ?_, ?_, ?_⟩
  · exact condition_matches_early_return_negation.1 _ _ (by decide) (by decide)
  · exact condition_matches_early_return_negation.2.1 _ _ _ "x"
      (by decide) (by decide) rfl (by decide) (by decide)
  · exact condition_matches_early_return_negation.2.2.1 _ _ _ ["other"]
      (by decide) (by decide) (by decide) rfl (by decide) (by decide)
  · exact condition_matches_early_return_negation.2.2.2.1 _ _ _ "x"
      (by decide) (by decide) (by decide) (by decide) rfl (by decide) (by decide)
  · exact condition_matches_early_return_negation.2.2.2.2.1 _ _ _ "abc"
      ⟨false, toRE [.once (.lit 'z')]⟩ (by decide) (by decide) (by decide) (by decide)
      (by decide) rfl (by decide) (by decide) (by decide)
  · exact condition_matches_early_return_negation.2.2.2.2.2.1 _ _ _ "abc"
      ⟨false, toRE [.once (.lit 'z')]⟩ (by decide) (by decide) (by decide) (by decide)
      (by decide) (by decide) rfl (by decide) (by decide) (by decide)
  · exact condition_matches_early_return_negation.2.2.2.2.2.2.1 _ {}
      (by decide) (by decide) (by decide) (by decide) (by decide) (by decide)
      rfl (by decide)
  · exact condition_matches_early_return_negation.2.2.2.2.2.2.2.1 _ _ { ID := some 2 }
      (by decide) (by decide) (by decide) (by decide) (by decide) (by decide)
      (by decide) (by decide) rfl (by decide)
  · exact condition_matches_early_return_negation.2.2.2.2.2.2.2.2.1 _ _ { ID := some 2 }
      (by decide) (by decide) (by decide) (by decide) (by decide) (by decide)
      (by decide) (by decide) (by decide) rfl (by decide)
  · exact condition_matches_early_return_negation.2.2.2.2.2.2.2.2.2.1 _ _
      (by decide) (by decide) (by decide) (by decide) (by decide) (by decide)
      (by decide) (by decide) (by decide)
  · exact condition_matches_early_return_negation.2.2.2.2.2.2.2.2.2.2.1 _ _
      rfl rfl rfl rfl rfl rfl rfl rfl rfl
  · exact condition_matches_early_return_negation.2.2.2.2.2.2.2.2.2.2.2 _

/-- C2: `Filter.Matches` is universal (AND) aggregation: it is true iff
every condition matches, the empty filter matches every event, and a
failing first condition short-circuits to false whatever follows it. -/
theorem filter_matches_universal_and :
    (∀ (f : Filter) (e : Event),
      f.Matches e = true ↔ ∀ c ∈ f.Conditions, c.Matches e = true) ∧
    (∀ e : Event, Filter.Matches { Conditions := [] } e = true) ∧
    (∀ (c : Condition) (cs : List Condition) (e : Event), c.Matches e = false →
      Filter.Matches { Conditions := c :: cs } e = false) := by
  refine ⟨?_, ?_, ?_⟩
  · intro f e
    exact matchesAll_iff e f.Conditions
  · intro e
    simp [Filter.Matches, matchesAll]
  · intro c cs e h
    simp [Filter.Matches, matchesAll, h]

/-- Witness for C2: a filter whose first condition fails rejects the
event, whatever the rest of the list would say. -/
theorem filter_matches_universal_and_witness :
    Filter.Matches { Conditions := [{ «Type» := "IssuesEvent" }, {}] }
      { «Type» := some "PushEvent" } = false :=
  filter_matches_universal_and.2.2 _ _ _ (by decide)

/-- C3: the claim (matching the `Condition` struct's own doc comment)
says a payload that is present but lacks the expected path — a payload
without an `action` key, or with `issue.milestone` null — makes
`Matches` return false regardless of `Negate`.  Evaluating the code at
exactly those inputs: the decode succeeds with the zero value, the
comparison fails softly, and `Matches` returns `c.Negate = true`. -/
theorem condition_matches_missing_path_returns_negate :
    Condition.Matches { PayloadAction := "opened", Negate := true }
      { RawPayload := some (.json (.obj [("other", .num 1)])) } = true ∧
    Condition.Matches { PayloadIssueMilestoneTitle := "nomatch", Negate := true }
      { RawPayload := some (.json (.obj [("issue", .obj [("milestone", .null)])])) }
      = true := by
  exact ⟨by decide, by decide⟩

/-- C4 counterexample: a condition whose only configured sub-check is
the organization ID, applied to an event with a nil organization
reference.  The claim says both `Negate` variants return false; the code
returns `c.Negate`, so the `Negate = true` variant returns true. -/
theorem condition_negation_law_counterexample :
    Condition.Matches { OrganizationID := 1, Negate := true } {} = true ∧
    Condition.Matches { OrganizationID := 1, Negate := false } {} = false := by
  exact ⟨by decide, by decide⟩

/-- C4 as amended: for a condition with exactly one configured
sub-check, `Matches` with `Negate = true` is the boolean negation of
`Matches` with `Negate = false` whenever the sub-check's data is present
and, for the regexp sub-checks, the pattern compiles; if a payload
sub-check's required data is absent (nil payload or a payload that fails
to decode) both variants return false; the organization and repository
ID sub-checks treat an absent reference as a comparison failure
returning `c.Negate`, so for them the law holds even on absent data. -/
theorem condition_negation_law_amended :
    (∀ (t : String) (e : Event), t ≠ "" →
      Condition.Matches { «Type» := t, Negate := true } e
        = !(Condition.Matches { «Type» := t } e)) ∧
    (∀ (a s : String) (e : Event) (raw : Raw), a ≠ "" → e.RawPayload = some raw →
      unmarshalAction raw = some s →
      Condition.Matches { PayloadAction := a, Negate := true } e
        = !(Condition.Matches { PayloadAction := a } e)) ∧
    (∀ (a : String) (e : Event), a ≠ "" →
      (e.RawPayload = none ∨ ∃ raw, e.RawPayload = some raw ∧ unmarshalAction raw = none) →
      Condition.Matches { PayloadAction := a, Negate := true } e = false ∧
      Condition.Matches { PayloadAction := a } e = false) ∧
    (∀ (l : String) (e : Event) (raw : Raw) (ls : List String), l ≠ "" →
      e.RawPayload = some raw → unmarshalIssueLabels raw = some ls →
      Condition.Matches { PayloadIssueLabel := l, Negate := true } e
        = !(Condition.Matches { PayloadIssueLabel := l } e)) ∧
    (∀ (l : String) (e : Event), l ≠ "" →
      (e.RawPayload = none ∨
        ∃ raw, e.RawPayload = some raw ∧ unmarshalIssueLabels raw = none) →
      Condition.Matches { PayloadIssueLabel := l, Negate := true } e = false ∧
      Condition.Matches { PayloadIssueLabel := l } e = false) ∧
    (∀ (m s : String) (e : Event) (raw : Raw), m ≠ "" → e.RawPayload = some raw →
      unmarshalIssueMilestoneTitle raw = some s →
      Condition.Matches { PayloadIssueMilestoneTitle := m, Negate := true } e
        = !(Condition.Matches { PayloadIssueMilestoneTitle := m } e)) ∧
    (∀ (m : String) (e : Event), m ≠ "" →
      (e.RawPayload = none ∨
        ∃ raw, e.RawPayload = some raw ∧ unmarshalIssueMilestoneTitle raw = none) →
      Condition.Matches { PayloadIssueMilestoneTitle := m, Negate := true } e = false ∧
      Condition.Matches { PayloadIssueMilestoneTitle := m } e = false) ∧
    (∀ (p t : String) (e : Event) (raw : Raw) (re : Regexp), p ≠ "" →
      e.RawPayload = some raw → unmarshalIssueTitle raw = some t →
      compileRegexp p = some re →
      Condition.Matches { PayloadIssueTitleRegexp := p, Negate := true } e
        = !(Condition.Matches { PayloadIssueTitleRegexp := p } e)) ∧
    (∀ (p : String) (e : Event), p ≠ "" →
      (e.RawPayload = none ∨
        ∃ raw, e.RawPayload = some raw ∧ unmarshalIssueTitle raw = none) →
      Condition.Matches { PayloadIssueTitleRegexp := p, Negate := true } e = false ∧
      Condition.Matches { PayloadIssueTitleRegexp := p } e = false) ∧
    (∀ (p b : String) (e : Event) (raw : Raw) (re : Regexp), p ≠ "" →
      e.RawPayload = some raw → unmarshalIssueBody raw = some b →
      compileRegexp p = some re →
      Condition.Matches { PayloadIssueBodyRegexp := p, Negate := true } e
        = !(Condition.Matches { PayloadIssueBodyRegexp := p } e)) ∧
    (∀ (p : String) (e : Event), p ≠ "" →
      (e.RawPayload = none ∨
        ∃ raw, e.RawPayload = some raw ∧ unmarshalIssueBody raw = none) →
      Condition.Matches { PayloadIssueBodyRegexp := p, Negate := true } e = false ∧
      Condition.Matches { PayloadIssueBodyRegexp := p } e = false) ∧
    (∀ (pub : Bool) (e : Event),
      Condition.Matches { ComparePublic := true, Public := pub, Negate := true } e
        = !(Condition.Matches { ComparePublic := true, Public := pub } e)) ∧
    (∀ (n : Int) (e : Event), n ≠ 0 →
      Condition.Matches { OrganizationID := n, Negate := true } e
        = !(Condition.Matches { OrganizationID := n } e)) ∧
    (∀ (n : Int) (e : Event), n ≠ 0 →
      Condition.Matches { RepositoryID := n, Negate := true } e
        = !(Condition.Matches { RepositoryID := n } e)) := by
  refine ⟨?_, ?_, ?_, ?_, ?_, ?_, ?_, ?_, ?_, ?_, ?_, ?_, ?_, ?_⟩
  · intro t e ht
    by_cases hg : e.GetType = t <;>
      simp [Condition.Matches, firstReturn, checkType, checkPayloadAction,
        checkPayloadIssueLabel, checkPayloadIssueMilestoneTitle,
        checkPayloadIssueTitleRegexp, checkPayloadIssueBodyRegexp, checkComparePublic,
        checkOrganizationID, checkRepositoryID, ht, hg]
  · intro a s e raw ha hraw hdec
    by_cases heq : lowerStr s = lowerStr a <;>
      simp [Condition.Matches, firstReturn, checkType, checkPayloadAction,
        checkPayloadIssueLabel, checkPayloadIssueMilestoneTitle,
        checkPayloadIssueTitleRegexp, checkPayloadIssueBodyRegexp, checkComparePublic,
        checkOrganizationID, checkRepositoryID, ha, hraw, hdec, heq]
  · intro a e ha habs
    rcases habs with h | ⟨raw, hraw, hdec⟩ <;>
      constructor <;>
      simp [Condition.Matches, firstReturn, checkType, checkPayloadAction, ha, *]
  · intro l e raw ls hl hraw hdec
    cases hany : ls.any fun x => lowerStr x == lowerStr l <;>
      simp [Condition.Matches, firstReturn, checkType, checkPayloadAction,
        checkPayloadIssueLabel, checkPayloadIssueMilestoneTitle,
        checkPayloadIssueTitleRegexp, checkPayloadIssueBodyRegexp, checkComparePublic,
        checkOrganizationID, checkRepositoryID, hl, hraw, hdec, hany]
  · intro l e hl habs
    rcases habs with h | ⟨raw, hraw, hdec⟩ <;>
      constructor <;>
      simp [Condition.Matches, firstReturn, checkType, checkPayloadAction,
        checkPayloadIssueLabel, hl, *]
  · intro m s e raw hm hraw hdec
    by_cases heq : lowerStr s = lowerStr m <;>
      simp [Condition.Matches, firstReturn, checkType, checkPayloadAction,
        checkPayloadIssueLabel, checkPayloadIssueMilestoneTitle,
        checkPayloadIssueTitleRegexp, checkPayloadIssueBodyRegexp, checkComparePublic,
        checkOrganizationID, checkRepositoryID, hm, hraw, hdec, heq]
  · intro m e hm habs
    rcases habs with h | ⟨raw, hraw, hdec⟩ <;>
      constructor <;>
      simp [Condition.Matches, firstReturn, checkType, checkPayloadAction,
        checkPayloadIssueLabel, checkPayloadIssueMilestoneTitle, hm, *]
  · intro p t e raw re hp hraw hdec hcomp
    cases hm : re.MatchString t <;>
      simp [Condition.Matches, firstReturn, checkType, checkPayloadAction,
        checkPayloadIssueLabel, checkPayloadIssueMilestoneTitle,
        checkPayloadIssueTitleRegexp, checkPayloadIssueBodyRegexp, checkComparePublic,
        checkOrganizationID, checkRepositoryID, hp, hraw, hdec, hcomp, hm]
  · intro p e hp habs
    rcases habs with h | ⟨raw, hraw, hdec⟩ <;>
      constructor <;>
      simp [Condition.Matches, firstReturn, checkType, checkPayloadAction,
        checkPayloadIssueLabel, checkPayloadIssueMilestoneTitle,
        checkPayloadIssueTitleRegexp, hp, *]
  · intro p b e raw re hp hraw hdec hcomp
    cases hm : re.MatchString b <;>
      simp [Condition.Matches, firstReturn, checkType, checkPayloadAction,
        checkPayloadIssueLabel, checkPayloadIssueMilestoneTitle,
        checkPayloadIssueTitleRegexp, checkPayloadIssueBodyRegexp, checkComparePublic,
        checkOrganizationID, checkRepositoryID, hp, hraw, hdec, hcomp, hm]
  · intro p e hp habs
    rcases habs with h | ⟨raw, hraw, hdec⟩ <;>
      constructor <;>
      simp [Condition.Matches, firstReturn, checkType, checkPayloadAction,
        checkPayloadIssueLabel, checkPayloadIssueMilestoneTitle,
        checkPayloadIssueTitleRegexp, checkPayloadIssueBodyRegexp, hp, *]
  · intro pub e
    by_cases h : e.GetPublic = pub <;>
      simp [Condition.Matches, firstReturn, checkType, checkPayloadAction,
        checkPayloadIssueLabel, checkPayloadIssueMilestoneTitle,
        checkPayloadIssueTitleRegexp, checkPayloadIssueBodyRegexp, checkComparePublic,
        checkOrganizationID, checkRepositoryID, h]
  · intro n e hn
    cases ho : e.Org with
    | none =>
      simp [Condition.Matches, firstReturn, checkType, checkPayloadAction,
        checkPayloadIssueLabel, checkPayloadIssueMilestoneTitle,
        checkPayloadIssueTitleRegexp, checkPayloadIssueBodyRegexp, checkComparePublic,
        checkOrganizationID, checkRepositoryID, hn, ho]
    | some o =>
      by_cases hid : o.GetID = n <;>
        simp [Condition.Matches, firstReturn, checkType, checkPayloadAction,
          checkPayloadIssueLabel, checkPayloadIssueMilestoneTitle,
          checkPayloadIssueTitleRegexp, checkPayloadIssueBodyRegexp, checkComparePublic,
          checkOrganizationID, checkRepositoryID, hn, ho, hid]
  · intro n e hn
    cases hr : e.Repo with
    | none =>
      simp [Condition.Matches, firstReturn, checkType, checkPayloadAction,
        checkPayloadIssueLabel, checkPayloadIssueMilestoneTitle,
        checkPayloadIssueTitleRegexp, checkPayloadIssueBodyRegexp, checkComparePublic,
        checkOrganizationID, checkRepositoryID, hn, hr]
    | some r =>
      by_cases hid : r.GetID = n <;>
        simp [Condition.Matches, firstReturn, checkType, checkPayloadAction,
          checkPayloadIssueLabel, checkPayloadIssueMilestoneTitle,
          checkPayloadIssueTitleRegexp, checkPayloadIssueBodyRegexp, checkComparePublic,
          checkOrganizationID, checkRepositoryID, hn, hr, hid]

/-- Witness for C4 (amended): each part of the amended negation law
instantiated at a concrete condition and event. -/
theorem condition_negation_law_amended_witness :
    (Condition.Matches { «Type» := "foo", Negate := true } { «Type» := some "foo" }
      = !(Condition.Matches { «Type» := "foo" } { «Type» := some "foo" })) ∧
    (Condition.Matches { PayloadAction := "opened", Negate := true }
        { RawPayload := some (.json (.obj [("action", .str "OPENED")])) }
      = !(Condition.Matches { PayloadAction := "opened" }
        { RawPayload := some (.json (.obj [("action", .str "OPENED")])) })) ∧
    (Condition.Matches { PayloadAction := "opened", Negate := true } {} = false ∧
      Condition.Matches { PayloadAction := "opened" } {} = false) ∧
    (Condition.Matches { PayloadIssueLabel := "lbl", Negate := true }
        { RawPayload := some (.json (.obj [("issue", .obj [("labels", .arr [.str "LBL"])])])) }
      = !(Condition.Matches { PayloadIssueLabel := "lbl" }
        { RawPayload := some (.json (.obj [("issue", .obj [("labels", .arr [.str "LBL"])])])) })) ∧
    (Condition.Matches { PayloadIssueLabel := "lbl", Negate := true } {} = false ∧
      Condition.Matches { PayloadIssueLabel := "lbl" } {} = false) ∧
    (Condition.Matches { PayloadIssueMilestoneTitle := "v1", Negate := true }
        { RawPayload := some (.json (.obj
          [("issue", .obj [("milestone", .obj [("title", .str "V1")])])])) }
      = !(Condition.Matches { PayloadIssueMilestoneTitle := "v1" }
        { RawPayload := some (.json (.obj
          [("issue", .obj [("milestone", .obj [("title", .str "V1")])])])) })) ∧
    (Condition.Matches { PayloadIssueMilestoneTitle := "v1", Negate := true } {} = false ∧
      Condition.Matches { PayloadIssueMilestoneTitle := "v1" } {} = false) ∧
    (Condition.Matches { PayloadIssueTitleRegexp := "a", Negate := true }
        { RawPayload := some (.json (.obj [("issue", .obj [("title", .str "a")])])) }
      = !(Condition.Matches { PayloadIssueTitleRegexp := "a" }
        { RawPayload := some (.json (.obj [("issue", .obj [("title", .str "a")])])) })) ∧
    (Condition.Matches { PayloadIssueTitleRegexp := "a", Negate := true } {} = false ∧
      Condition.Matches { PayloadIssueTitleRegexp := "a" } {} = false) ∧
    (Condition.Matches { PayloadIssueBodyRegexp := "b", Negate := true }
        { RawPayload := some (.json (.obj [("issue", .obj [("body", .str "b")])])) }
      = !(Condition.Matches { PayloadIssueBodyRegexp := "b" }
        { RawPayload := some (.json (.obj [("issue", .obj [("body", .str "b")])])) })) ∧
    (Condition.Matches { PayloadIssueBodyRegexp := "b", Negate := true } {} = false ∧
      Condition.Matches { PayloadIssueBodyRegexp := "b" } {} = false) ∧
    (Condition.Matches { ComparePublic := true, Public := true, Negate := true } {}
      = !(Condition.Matches { ComparePublic := true, Public := true } {})) ∧
    (Condition.Matches { OrganizationID := 1, Negate := true } {}
      = !(Condition.Matches { OrganizationID := 1 } {})) ∧
    (Condition.Matches { RepositoryID := 1, Negate := true } {}
      = !(Condition.Matches { RepositoryID := 1 } {})) := by
  refine ⟨?_, ?_, ?_, ?_, ?_, ?_, ?_, ?_, ?_, ?_, ?_, ?_, ?_, ?_⟩
  · exact condition_negation_law_amended.1 "foo" _ (by decide)
  · exact condition_negation_law_amended.2.1 "opened" "OPENED" _ _ (by decide) rfl (by decide)
  · exact condition_negation_law_amended.2.2.1 "opened" {} (by decide) (Or.inl rfl)
  · exact condition_negation_law_amended.2.2.2.1 "lbl" _ _ ["LBL"] (by decide) rfl (by decide)
  · exact condition_negation_law_amended.2.2.2.2.1 "lbl" {} (by decide) (Or.inl rfl)
  · exact condition_negation_law_amended.2.2.2.2.2.1 "v1" "V1" _ _ (by decide) rfl (by decide)
  · exact condition_negation_law_amended.2.2.2.2.2.2.1 "v1" {} (by decide) (Or.inl rfl)
  · exact condition_negation_law_amended.2.2.2.2.2.2.2.1 "a" "a" _ _
      ⟨false, toRE [.once (.lit 'a')]⟩ (by decide) rfl (by decide) (by decide)
  · exact condition_negation_law_amended.2.2.2.2.2.2.2.2.1 "a" {} (by decide) (Or.inl rfl)
  · exact condition_negation_law_amended.2.2.2.2.2.2.2.2.2.1 "b" "b" _ _
      ⟨false, toRE [.once (.lit 'b')]⟩ (by decide) rfl (by decide) (by decide)
  · exact condition_negation_law_amended.2.2.2.2.2.2.2.2.2.2.1 "b" {} (by decide) (Or.inl rfl)
  · exact condition_negation_law_amended.2.2.2.2.2.2.2.2.2.2.2.1 true {}
  · exact condition_negation_law_amended.2.2.2.2.2.2.2.2.2.2.2.2.1 1 {} (by decide)
  · exact condition_negation_law_amended.2.2.2.2.2.2.2.2.2.2.2.2.2 1 {} (by decide)

/-- C5: when evaluation reaches the payload sub-checks (the type
sub-check does not early-return) and at least one payload sub-check is
configured, a nil raw payload — and likewise a raw payload that is not
valid JSON, which fails every decode — makes `Matches` return false
immediately, independent of `Negate`; and a payload that is valid JSON
but fails to unmarshal into the reached sub-check's expected shape (a
wrong-typed value on the decoded path) equally returns false at that
sub-check, for each of the five payload sub-checks. -/
theorem condition_matches_absent_payload_hard_fail :
    (∀ (c : Condition) (e : Event), checkType c e = none →
      (c.PayloadAction ≠ "" ∨ c.PayloadIssueLabel ≠ "" ∨ c.PayloadIssueMilestoneTitle ≠ "" ∨
        c.PayloadIssueTitleRegexp ≠ "" ∨ c.PayloadIssueBodyRegexp ≠ "") →
      e.RawPayload = none → c.Matches e = false) ∧
    (∀ (c : Condition) (e : Event), checkType c e = none →
      (c.PayloadAction ≠ "" ∨ c.PayloadIssueLabel ≠ "" ∨ c.PayloadIssueMilestoneTitle ≠ "" ∨
        c.PayloadIssueTitleRegexp ≠ "" ∨ c.PayloadIssueBodyRegexp ≠ "") →
      e.RawPayload = some .invalid → c.Matches e = false) ∧
    (∀ (c : Condition) (e : Event) (raw : Raw), checkType c e = none →
      c.PayloadAction ≠ "" → e.RawPayload = some raw →
      unmarshalAction raw = none → c.Matches e = false) ∧
    (∀ (c : Condition) (e : Event) (raw : Raw),
      checkType c e = none → checkPayloadAction c e = none →
      c.PayloadIssueLabel ≠ "" → e.RawPayload = some raw →
      unmarshalIssueLabels raw = none → c.Matches e = false) ∧
    (∀ (c : Condition) (e : Event) (raw : Raw),
      checkType c e = none → checkPayloadAction c e = none →
      checkPayloadIssueLabel c e = none →
      c.PayloadIssueMilestoneTitle ≠ "" → e.RawPayload = some raw →
      unmarshalIssueMilestoneTitle raw = none → c.Matches e = false) ∧
    (∀ (c : Condition) (e : Event) (raw : Raw),
      checkType c e = none → checkPayloadAction c e = none →
      checkPayloadIssueLabel c e = none → checkPayloadIssueMilestoneTitle c e = none →
      c.PayloadIssueTitleRegexp ≠ "" → e.RawPayload = some raw →
      unmarshalIssueTitle raw = none → c.Matches e = false) ∧
    (∀ (c : Condition) (e : Event) (raw : Raw),
      checkType c e = none → checkPayloadAction c e = none →
      checkPayloadIssueLabel c e = none → checkPayloadIssueMilestoneTitle c e = none →
      checkPayloadIssueTitleRegexp c e = none →
      c.PayloadIssueBodyRegexp ≠ "" → e.RawPayload = some raw →
      unmarshalIssueBody raw = none → c.Matches e = false) := by
  refine ⟨?_, ?_, ?_, ?_, ?_, ?_, ?_⟩
  · intro c e htype hcfg hraw
    by_cases h1 : c.PayloadAction = ""
    · by_cases h2 : c.PayloadIssueLabel = ""
      · by_cases h3 : c.PayloadIssueMilestoneTitle = ""
        · by_cases h4 : c.PayloadIssueTitleRegexp = ""
          · by_cases h5 : c.PayloadIssueBodyRegexp = ""
            · rcases hcfg with h | h | h | h | h <;> contradiction
            · simp [Condition.Matches, firstReturn, checkPayloadAction,
                checkPayloadIssueLabel, checkPayloadIssueMilestoneTitle,
                checkPayloadIssueTitleRegexp, checkPayloadIssueBodyRegexp,
                htype, hraw, h1, h2, h3, h4, h5]
          · simp [Condition.Matches, firstReturn, checkPayloadAction,
              checkPayloadIssueLabel, checkPayloadIssueMilestoneTitle,
              checkPayloadIssueTitleRegexp, htype, hraw, h1, h2, h3, h4]
        · simp [Condition.Matches, firstReturn, checkPayloadAction,
            checkPayloadIssueLabel, checkPayloadIssueMilestoneTitle,
            htype, hraw, h1, h2, h3]
      · simp [Condition.Matches, firstReturn, checkPayloadAction,
          checkPayloadIssueLabel, htype, hraw, h1, h2]
    · simp [Condition.Matches, firstReturn, checkPayloadAction, htype, hraw, h1]
  · intro c e htype hcfg hraw
    by_cases h1 : c.PayloadAction = ""
    · by_cases h2 : c.PayloadIssueLabel = ""
      · by_cases h3 : c.PayloadIssueMilestoneTitle = ""
        · by_cases h4 : c.PayloadIssueTitleRegexp = ""
          · by_cases h5 : c.PayloadIssueBodyRegexp = ""
            · rcases hcfg with h | h | h | h | h <;> contradiction
            · simp [Condition.Matches, firstReturn, checkPayloadAction,
                checkPayloadIssueLabel, checkPayloadIssueMilestoneTitle,
                checkPayloadIssueTitleRegexp, checkPayloadIssueBodyRegexp,
                unmarshalIssueBody, htype, hraw, h1, h2, h3, h4, h5]
          · simp [Condition.Matches, firstReturn, checkPayloadAction,
              checkPayloadIssueLabel, checkPayloadIssueMilestoneTitle,
              checkPayloadIssueTitleRegexp, unmarshalIssueTitle,
              htype, hraw, h1, h2, h3, h4]
        · simp [Condition.Matches, firstReturn, checkPayloadAction,
            checkPayloadIssueLabel, checkPayloadIssueMilestoneTitle,
            unmarshalIssueMilestoneTitle, htype, hraw, h1, h2, h3]
      · simp [Condition.Matches, firstReturn, checkPayloadAction,
          checkPayloadIssueLabel, unmarshalIssueLabels, htype, hraw, h1, h2]
    · simp [Condition.Matches, firstReturn, checkPayloadAction, unmarshalAction,
        htype, hraw, h1]
  · intro c e raw htype ha hraw hdec
    simp [Condition.Matches, firstReturn, checkPayloadAction, htype, ha, hraw, hdec]
  · intro c e raw h1 h2 hl hraw hdec
    simp [Condition.Matches, firstReturn, checkPayloadIssueLabel,
      h1, h2, hl, hraw, hdec]
  · intro c e raw h1 h2 h3 hm hraw hdec
    simp [Condition.Matches, firstReturn, checkPayloadIssueMilestoneTitle,
      h1, h2, h3, hm, hraw, hdec]
  · intro c e raw h1 h2 h3 h4 hp hraw hdec
    simp [Condition.Matches, firstReturn, checkPayloadIssueTitleRegexp,
      h1, h2, h3, h4, hp, hraw, hdec]
  · intro c e raw h1 h2 h3 h4 h5 hp hraw hdec
    simp [Condition.Matches, firstReturn, checkPayloadIssueBodyRegexp,
      h1, h2, h3, h4, h5, hp, hraw, hdec]

/-- Witness for C5: with `Negate = true` throughout — a nil payload,
payload bytes that are not valid JSON, and valid-JSON payloads whose
decoded path holds a wrong-typed value for each of the five payload
sub-checks (`{"action": 5}`, `{"issue":{"labels": 5}}`, and so on) all
yield false. -/
theorem condition_matches_absent_payload_hard_fail_witness :
    Condition.Matches { PayloadAction := "opened", Negate := true } {} = false ∧
    Condition.Matches { PayloadAction := "opened", Negate := true }
      { RawPayload := some .invalid } = false ∧
    Condition.Matches { PayloadAction := "opened", Negate := true }
      { RawPayload := some (.json (.obj [("action", .num 5)])) } = false ∧
    Condition.Matches { PayloadIssueLabel := "lbl", Negate := true }
      { RawPayload := some (.json (.obj [("issue", .obj [("labels", .num 5)])])) }
      = false ∧
    Condition.Matches { PayloadIssueMilestoneTitle := "v1", Negate := true }
      { RawPayload := some (.json (.obj [("issue", .obj [("milestone", .num 5)])])) }
      = false ∧
    Condition.Matches { PayloadIssueTitleRegexp := "a", Negate := true }
      { RawPayload := some (.json (.obj [("issue", .obj [("title", .num 5)])])) }
      = false ∧
    Condition.Matches { PayloadIssueBodyRegexp := "a", Negate := true }
      { RawPayload := some (.json (.obj [("issue", .obj [("body", .num 5)])])) }
      = false := by
  refine ⟨?_, ?_, ?_, ?_, ?_, ?_, ?_⟩
  · exact condition_matches_absent_payload_hard_fail.1 _ {} (by decide)
      (Or.inl (by decide)) rfl
  · exact condition_matches_absent_payload_hard_fail.2.1 _ _ (by decide)
      (Or.inl (by decide)) rfl
  · exact condition_matches_absent_payload_hard_fail.2.2.1 _ _ _
      (by decide) (by decide) rfl (by decide)
  · exact condition_matches_absent_payload_hard_fail.2.2.2.1 _ _ _
      (by decide) (by decide) (by decide) rfl (by decide)
  · exact condition_matches_absent_payload_hard_fail.2.2.2.2.1 _ _ _
      (by decide) (by decide) (by decide) (by decide) rfl (by decide)
  · exact condition_matches_absent_payload_hard_fail.2.2.2.2.2.1 _ _ _
      (by decide) (by decide) (by decide) (by decide) (by decide) rfl (by decide)
  · exact condition_matches_absent_payload_hard_fail.2.2.2.2.2.2 _ _ _
      (by decide) (by decide) (by decide) (by decide) (by decide) (by decide) rfl
      (by decide)

/-- C6: when evaluation reaches a regexp sub-check whose configured
pattern does not compile, and the payload decodes to the expected issue
shape, `Matches` returns false — a hard fail, never `c.Negate`. -/
theorem condition_matches_malformed_regexp_hard_fail :
    (∀ (c : Condition) (e : Event) (raw : Raw) (t : String),
      checkType c e = none → checkPayloadAction c e = none →
      checkPayloadIssueLabel c e = none → checkPayloadIssueMilestoneTitle c e = none →
      c.PayloadIssueTitleRegexp ≠ "" → e.RawPayload = some raw →
      unmarshalIssueTitle raw = some t →
      compileRegexp c.PayloadIssueTitleRegexp = none →
      c.Matches e = false) ∧
    (∀ (c : Condition) (e : Event) (raw : Raw) (b : String),
      checkType c e = none → checkPayloadAction c e = none →
      checkPayloadIssueLabel c e = none → checkPayloadIssueMilestoneTitle c e = none →
      checkPayloadIssueTitleRegexp c e = none →
      c.PayloadIssueBodyRegexp ≠ "" → e.RawPayload = some raw →
      unmarshalIssueBody raw = some b →
      compileRegexp c.PayloadIssueBodyRegexp = none →
      c.Matches e = false) := by
  constructor
  · intro c e raw t h1 h2 h3 h4 hp hraw hdec hcomp
    simp [Condition.Matches, firstReturn, checkPayloadIssueTitleRegexp,
      h1, h2, h3, h4, hp, hraw, hdec, hcomp]
  · intro c e raw b h1 h2 h3 h4 h5 hp hraw hdec hcomp
    simp [Condition.Matches, firstReturn, checkPayloadIssueBodyRegexp,
      h1, h2, h3, h4, h5, hp, hraw, hdec, hcomp]

/-- Witness for C6: the malformed patterns `"("` and `"["` (rejected by
the compiler) against payloads that decode to the issue shape, with
`Negate = true`. -/
theorem condition_matches_malformed_regexp_hard_fail_witness :
    Condition.Matches { PayloadIssueTitleRegexp := "(", Negate := true }
      { RawPayload := some (.json (.obj [("issue", .obj [("title", .str "x")])])) }
      = false ∧
    Condition.Matches { PayloadIssueBodyRegexp := "[", Negate := true }
      { RawPayload := some (.json (.obj [("issue", .obj [("body", .str "x")])])) }
      = false := by
  constructor
  · exact condition_matches_malformed_regexp_hard_fail.1 _ _ _ "x"
      (by decide) (by decide) (by decide) (by decide) (by decide) rfl (by decide) (by decide)
  · exact condition_matches_malformed_regexp_hard_fail.2 _ _ _ "x"
      (by decide) (by decide) (by decide) (by decide) (by decide) (by decide) rfl
      (by decide) (by decide)

/-- C7: the type sub-check is case-sensitive exact string equality,
while the payload string sub-checks are case-insensitive — `Matches`
computes the lower-cased comparison for `payloadAction` and
`payloadIssueMilestoneTitle` and a lower-cased, order-independent
membership test over the decoded labels for `payloadIssueLabel`; in
particular `"lbl"` matches labels `["LBL", "x"]` and not `[]`. -/
theorem condition_matches_case_semantics :
    (∀ (t : String) (e : Event), t ≠ "" →
      Condition.Matches { «Type» := t } e = (e.GetType == t)) ∧
    (Condition.Matches { «Type» := "foo" } { «Type» := some "FOO" } = false) ∧
    (∀ (a s : String) (e : Event) (raw : Raw), a ≠ "" → e.RawPayload = some raw →
      unmarshalAction raw = some s →
      Condition.Matches { PayloadAction := a } e = (lowerStr s == lowerStr a)) ∧
    (∀ (l : String) (e : Event) (raw : Raw) (ls : List String), l ≠ "" →
      e.RawPayload = some raw → unmarshalIssueLabels raw = some ls →
      Condition.Matches { PayloadIssueLabel := l } e
        = ls.any fun x => lowerStr x == lowerStr l) ∧
    (∀ (l : String) (e1 e2 : Event) (raw1 raw2 : Raw) (ls1 ls2 : List String), l ≠ "" →
      e1.RawPayload = some raw1 → unmarshalIssueLabels raw1 = some ls1 →
      e2.RawPayload = some raw2 → unmarshalIssueLabels raw2 = some ls2 →
      ls1.Perm ls2 →
      Condition.Matches { PayloadIssueLabel := l } e1
        = Condition.Matches { PayloadIssueLabel := l } e2) ∧
    (Condition.Matches { PayloadIssueLabel := "lbl" }
      { RawPayload := some (.json (.obj
        [("issue", .obj [("labels", .arr [.str "LBL", .str "x"])])])) } = true) ∧
    (Condition.Matches { PayloadIssueLabel := "lbl" }
      { RawPayload := some (.json (.obj [("issue", .obj [("labels", .arr [])])])) }
      = false) ∧
    (∀ (m s : String) (e : Event) (raw : Raw), m ≠ "" →
      e.RawPayload = some raw → unmarshalIssueMilestoneTitle raw = some s →
      Condition.Matches { PayloadIssueMilestoneTitle := m } e
        = (lowerStr s == lowerStr m)) := by
  refine ⟨?_, by decide, ?_, ?_, ?_, by decide, by decide, ?_⟩
  · intro t e ht
    by_cases hg : e.GetType = t <;>
      simp [Condition.Matches, firstReturn, checkType, checkPayloadAction,
        checkPayloadIssueLabel, checkPayloadIssueMilestoneTitle,
        checkPayloadIssueTitleRegexp, checkPayloadIssueBodyRegexp, checkComparePublic,
        checkOrganizationID, checkRepositoryID, beq_iff_eq, ht, hg]
  · intro a s e raw ha hraw hdec
    by_cases heq : lowerStr s = lowerStr a <;>
      simp [Condition.Matches, firstReturn, checkType, checkPayloadAction,
        checkPayloadIssueLabel, checkPayloadIssueMilestoneTitle,
        checkPayloadIssueTitleRegexp, checkPayloadIssueBodyRegexp, checkComparePublic,
        checkOrganizationID, checkRepositoryID, beq_iff_eq, ha, hraw, hdec, heq]
  · intro l e raw ls hl hraw hls
    exact matches_payloadIssueLabel_any l e raw ls hl hraw hls
  · intro l e1 e2 raw1 raw2 ls1 ls2 hl h1 hd1 h2 hd2 hperm
    rw [matches_payloadIssueLabel_any l e1 raw1 ls1 hl h1 hd1,
      matches_payloadIssueLabel_any l e2 raw2 ls2 hl h2 hd2]
    refine Bool.eq_iff_iff.mpr ?_
    simp only [List.any_eq_true]
    constructor
    · rintro ⟨x, hx, hfx⟩
      exact ⟨x, hperm.mem_iff.mp hx, hfx⟩
    · rintro ⟨x, hx, hfx⟩
      exact ⟨x, hperm.mem_iff.mpr hx, hfx⟩
  · intro m s e raw hm hraw hdec
    by_cases heq : lowerStr s = lowerStr m <;>
      simp [Condition.Matches, firstReturn, checkType, checkPayloadAction,
        checkPayloadIssueLabel, checkPayloadIssueMilestoneTitle,
        checkPayloadIssueTitleRegexp, checkPayloadIssueBodyRegexp, checkComparePublic,
        checkOrganizationID, checkRepositoryID, beq_iff_eq, hm, hraw, hdec, heq]

/-- Witness for C7: concrete instantiations of the quantified parts —
exact type match, `"OPENED"` against action `"opened"`, the label
membership test over `["LBL", "x"]`, permuted label lists giving the
same result, and `"TITLE"` against milestone title `"title"`. -/
theorem condition_matches_case_semantics_witness :
    (Condition.Matches { «Type» := "IssuesEvent" } { «Type» := some "IssuesEvent" }
      = (Event.GetType { «Type» := some "IssuesEvent" } == "IssuesEvent")) ∧
    (Condition.Matches { PayloadAction := "OPENED" }
        { RawPayload := some (.json (.obj [("action", .str "opened")])) }
      = (lowerStr "opened" == lowerStr "OPENED")) ∧
    (Condition.Matches { PayloadIssueLabel := "lbl" }
        { RawPayload := some (.json (.obj
          [("issue", .obj [("labels", .arr [.str "LBL", .str "x"])])])) }
      = (["LBL", "x"].any fun x => lowerStr x == lowerStr "lbl")) ∧
    (Condition.Matches { PayloadIssueLabel := "a" }
        { RawPayload := some (.json (.obj
          [("issue", .obj [("labels", .arr [.str "a", .str "b"])])])) }
      = Condition.Matches { PayloadIssueLabel := "a" }
        { RawPayload := some (.json (.obj
          [("issue", .obj [("labels", .arr [.str "b", .str "a"])])])) }) ∧
    (Condition.Matches { PayloadIssueMilestoneTitle := "TITLE" }
        { RawPayload := some (.json (.obj
          [("issue", .obj [("milestone", .obj [("title", .str "title")])])])) }
      = (lowerStr "title" == lowerStr "TITLE")) := by
  refine ⟨?_, ?_, ?_, ?_, ?_⟩
  · exact condition_matches_case_semantics.1 "IssuesEvent" _ (by decide)
  · exact condition_matches_case_semantics.2.2.1 "OPENED" "opened" _ _
      (by decide) rfl (by decide)
  · exact condition_matches_case_semantics.2.2.2.1 "lbl" _ _ ["LBL", "x"]
      (by decide) rfl (by decide)
  · exact condition_matches_case_semantics.2.2.2.2.1 "a" _ _ _ _ ["a", "b"] ["b", "a"]
      (by decide) rfl (by decide) rfl (by decide) (List.Perm.swap "b" "a" [])
  · exact condition_matches_case_semantics.2.2.2.2.2.2.2 "TITLE" "title" _ _
      (by decide) rfl (by decide)

/-- C8: regexp sub-checks are unanchored search — a compiled pattern
that matches a string also matches it embedded in any surrounding text —
and the pattern `"(?i)will\s+match"` (case-insensitivity flag embedded
in the pattern, compiled afresh inside `Matches` at each evaluation)
matches the issue title `"This will Match"` and not
`"This will Not Match"`. -/
theorem condition_regexp_search_semantics :
    (∀ (pat : String) (re : Regexp) (s1 s2 s3 : String),
      compileRegexp pat = some re → re.MatchString s2 = true →
      re.MatchString (s1 ++ s2 ++ s3) = true) ∧
    (Condition.Matches { PayloadIssueTitleRegexp := "(?i)will\\s+match" }
      { RawPayload := some (.json (.obj
        [("issue", .obj [("title", .str "This will Match")])])) } = true) ∧
    (Condition.Matches { PayloadIssueTitleRegexp := "(?i)will\\s+match" }
      { RawPayload := some (.json (.obj
        [("issue", .obj [("title", .str "This will Not Match")])])) } = false) := by
  refine ⟨?_, by decide, by decide⟩
  intro pat re s1 s2 s3 hcomp h
  show searchAux re.ci re.re (s1 ++ s2 ++ s3).data = true
  rw [String.data_append, String.data_append, List.append_assoc]
  exact searchAux_append_left s1.data _ (searchAux_append_right s2.data s3.data h)

/-- Witness for C8: the substring property applied to the compiled
pattern `"ab"` and the embedding of `"ab"` inside `"x" ++ "ab" ++ "y"`. -/
theorem condition_regexp_search_semantics_witness :
    Regexp.MatchString { ci := false, re := toRE [.once (.lit 'a'), .once (.lit 'b')] }
      ("x" ++ "ab" ++ "y") = true :=
  condition_regexp_search_semantics.1 "ab" _ "x" "ab" "y" (by decide) (by decide)

/-- C9: the rendering method lists the configured sub-checks in
evaluation order, joined with `" AND "`, phrased per `Negate`; in
particular `Condition{Type: "foo", Negate: true}` renders as
`If type is not "foo"` and
`Condition{ComparePublic: true, Public: false, Negate: true}` renders as
the literal `If event is not not public`. -/
theorem condition_string_rendering :
    Condition.string { «Type» := "foo", Negate := true } = "If type is not \"foo\"" ∧
    Condition.string { ComparePublic := true, Public := false, Negate := true }
      = "If event is not not public" ∧
    Condition.string { «Type» := "foo", PayloadAction := "bar", Negate := true }
      = "If type is not \"foo\" AND payload action is not \"bar\"" ∧
    Condition.string { PayloadIssueLabel := "foo" }
      = "If payload issue label contains \"foo\"" ∧
    Condition.string { PayloadIssueTitleRegexp := "foo['\"]", Negate := true }
      = "If payload issue title does not match regexp \"foo['\\\"]\"" ∧
    Condition.string { OrganizationID := 1, Negate := true }
      = "If organization ID is not 1" ∧
    Condition.string { RepositoryID := 1 } = "If repository ID is 1" := by
  refine ⟨?_, ?_, ?_, ?_, ?_, ?_, ?_⟩ <;> decide

/-- C10: with `ComparePublic` configured and the event's visibility
pointer nil, `GetPublic` yields false, so the sub-check succeeds exactly
when the condition's `Public` is false; a mismatch returns `c.Negate`
like any comparison failure — absent visibility is never a hard
absence-of-data failure. -/
theorem condition_public_absent_not_public :
    ∀ (negate pub : Bool) (e : Event), e.Public = none →
      Condition.Matches { ComparePublic := true, Public := pub, Negate := negate } e
        = if pub then negate else !negate := by
  intro negate pub e h
  cases pub <;>
    simp [Condition.Matches, firstReturn, checkType, checkPayloadAction,
      checkPayloadIssueLabel, checkPayloadIssueMilestoneTitle,
      checkPayloadIssueTitleRegexp, checkPayloadIssueBodyRegexp, checkComparePublic,
      checkOrganizationID, checkRepositoryID, Event.GetPublic, h]

/-- Witness for C10: an event without a visibility field mismatches
`Public = true`, so `Negate = true` turns it into an overall match; and
it satisfies `Public = false` without negation. -/
theorem condition_public_absent_not_public_witness :
    Condition.Matches { ComparePublic := true, Public := true, Negate := true } {}
      = true ∧
    Condition.Matches { ComparePublic := true, Public := false } {} = true := by
  constructor
  · exact condition_public_absent_not_public true true {} rfl
  · exact condition_public_absent_not_public false false {} rfl

end Ghfilter
